import Mathlib

set_option maxRecDepth 4096

/-!
Shallow embedding of `src/generator.py` (the AI-BUILDER static-site
generator).  The script is a linear pipeline: it validates the API key,
asks a remote chat-completion service for a site structure (JSON), for
header/footer markup, for a stylesheet and for one body per page, and
assembles/writes the files.

Modelling choices, all translated from the source:
* Remote responses are supplied by an oracle (`Env.respond`), indexed by
  the order in which the script issues its network calls (0 = structure,
  1 = header, 2 = footer, 3 = CSS, 4.. = pages).
* `requests.Response` is modelled by `HttpResponse` (status code and raw
  body text); `response.raise_for_status()` raises exactly for
  400 ≤ status < 600, `response.json()` is modelled by `jsonParse`.
* Python exceptions are mapped to the error taxonomy the specification
  uses for them: `RuntimeError` for the missing key ↦ `configurationError`,
  `requests.HTTPError` ↦ `transportError`, a missing/ill-typed field in the
  completion body (KeyError/IndexError/TypeError, and a body that is not
  JSON at all) ↦ `protocolError`, `json.JSONDecodeError` on the structure
  text and the later KeyError/TypeError at `structure["pages"]`
  ↦ `structureParseError`.
* I/O is recorded as an event trace: one `netCall` per `requests.post`
  and one `fileWrite` per `write_text`.  Console prints are not modelled.
-/

/-! ### JSON values and a model of `json.loads` -/

inductive JsonV where
  | null : JsonV
  | bool (b : Bool) : JsonV
  | num (lexeme : String) : JsonV
  | str (s : String) : JsonV
  | arr (elems : List JsonV) : JsonV
  | obj (members : List (String × JsonV)) : JsonV

/-- The opening-brace character, written via its code point. -/
def lbrace : Char := Char.ofNat 123

/-- The closing-brace character, written via its code point. -/
def rbrace : Char := Char.ofNat 125

def isJsonWs (c : Char) : Bool := c = ' ' || c = '\n' || c = '\t' || c = '\r'

def skipWs (cs : List Char) : List Char := cs.dropWhile isJsonWs

def hexDigitVal (c : Char) : Option Nat :=
  if '0' ≤ c ∧ c ≤ '9' then some (c.toNat - 48)
  else if 'a' ≤ c ∧ c ≤ 'f' then some (c.toNat - 87)
  else if 'A' ≤ c ∧ c ≤ 'F' then some (c.toNat - 55)
  else none

/-- Body of a JSON string literal (after the opening quote), with the
escape sequences of the JSON grammar. -/
def parseStringBody : Nat → List Char → List Char → Option (String × List Char)
  | 0, _, _ => none
  | fuel + 1, cs, acc =>
    match cs with
    | [] => none
    | c :: rest =>
      if c = '"' then some (String.mk acc.reverse, rest)
      else if c = '\\' then
        match rest with
        | [] => none
        | e :: rest2 =>
          if e = '"' then parseStringBody fuel rest2 ('"' :: acc)
          else if e = '\\' then parseStringBody fuel rest2 ('\\' :: acc)
          else if e = '/' then parseStringBody fuel rest2 ('/' :: acc)
          else if e = 'n' then parseStringBody fuel rest2 ('\n' :: acc)
          else if e = 't' then parseStringBody fuel rest2 ('\t' :: acc)
          else if e = 'r' then parseStringBody fuel rest2 ('\r' :: acc)
          else if e = 'b' then parseStringBody fuel rest2 (Char.ofNat 8 :: acc)
          else if e = 'f' then parseStringBody fuel rest2 (Char.ofNat 12 :: acc)
          else if e = 'u' then
            match rest2 with
            | h1 :: h2 :: h3 :: h4 :: rest3 =>
              match hexDigitVal h1, hexDigitVal h2, hexDigitVal h3, hexDigitVal h4 with
              | some a, some b, some c2, some d =>
                  parseStringBody fuel rest3
                    (Char.ofNat (((a * 16 + b) * 16 + c2) * 16 + d) :: acc)
              | _, _, _, _ => none
            | _ => none
          else none
      else parseStringBody fuel rest (c :: acc)

/-- Optional fraction part of a JSON number. -/
def parseFrac (cs : List Char) : Option (List Char × List Char) :=
  match cs with
  | '.' :: r =>
    let ds := r.takeWhile Char.isDigit
    if ds.isEmpty then none else some ('.' :: ds, r.dropWhile Char.isDigit)
  | _ => some ([], cs)

/-- Optional exponent part of a JSON number. -/
def parseExp (cs : List Char) : Option (List Char × List Char) :=
  match cs with
  | e :: r =>
    if e = 'e' ∨ e = 'E' then
      let sr : List Char × List Char :=
        match r with
        | '+' :: r2 => (['+'], r2)
        | '-' :: r2 => (['-'], r2)
        | _ => ([], r)
      let ds := sr.2.takeWhile Char.isDigit
      if ds.isEmpty then none
      else some (e :: (sr.1 ++ ds), sr.2.dropWhile Char.isDigit)
    else some ([], cs)
  | [] => some ([], [])

/-- A JSON number; the lexeme is kept verbatim (its numeric value is never
used by the script). -/
def parseNumber (cs : List Char) : Option (String × List Char) :=
  let sr : List Char × List Char :=
    match cs with
    | '-' :: r => (['-'], r)
    | _ => ([], cs)
  let ints := sr.2.takeWhile Char.isDigit
  if ints.isEmpty then none
  else if 1 < ints.length ∧ ints.head? = some '0' then none
  else
    let cs2 := sr.2.dropWhile Char.isDigit
    match parseFrac cs2 with
    | none => none
    | some (fr, cs3) =>
      match parseExp cs3 with
      | none => none
      | some (ex, cs4) => some (String.mk (sr.1 ++ ints ++ fr ++ ex), cs4)

mutual

def parseVal : Nat → List Char → Option (JsonV × List Char)
  | 0, _ => none
  | fuel + 1, cs =>
    match cs with
    | [] => none
    | c :: rest =>
      if c = '"' then
        match parseStringBody (fuel + 1) rest [] with
        | some (s, r) => some (JsonV.str s, r)
        | none => none
      else if c = '[' then
        match skipWs rest with
        | ']' :: r2 => some (JsonV.arr [], r2)
        | r1 =>
          match parseElems fuel r1 with
          | some (xs, r2) => some (JsonV.arr xs, r2)
          | none => none
      else if c = lbrace then
        match skipWs rest with
        | c2 :: r2 =>
          if c2 = rbrace then some (JsonV.obj [], r2)
          else
            match parseMembers fuel (c2 :: r2) with
            | some (ms, r3) => some (JsonV.obj ms, r3)
            | none => none
        | [] => none
      else if c = 'n' then
        if rest.take 3 = ['u', 'l', 'l'] then some (JsonV.null, rest.drop 3) else none
      else if c = 't' then
        if rest.take 3 = ['r', 'u', 'e'] then some (JsonV.bool true, rest.drop 3) else none
      else if c = 'f' then
        if rest.take 4 = ['a', 'l', 's', 'e'] then some (JsonV.bool false, rest.drop 4)
        else none
      else
        match parseNumber cs with
        | some (lex, r) => some (JsonV.num lex, r)
        | none => none

def parseElems : Nat → List Char → Option (List JsonV × List Char)
  | 0, _ => none
  | fuel + 1, cs =>
    match parseVal fuel (skipWs cs) with
    | none => none
    | some (v, r) =>
      match skipWs r with
      | ',' :: r2 =>
        match parseElems fuel r2 with
        | some (xs, r3) => some (v :: xs, r3)
        | none => none
      | ']' :: r2 => some ([v], r2)
      | _ => none

def parseMembers : Nat → List Char → Option (List (String × JsonV) × List Char)
  | 0, _ => none
  | fuel + 1, cs =>
    match cs with
    | c :: r =>
      if c = '"' then
        match parseStringBody (fuel + 1) r [] with
        | some (k, r2) =>
          match skipWs r2 with
          | ':' :: r3 =>
            match parseVal fuel (skipWs r3) with
            | some (v, r4) =>
              match skipWs r4 with
              | ',' :: r5 =>
                match parseMembers fuel (skipWs r5) with
                | some (ms, r6) => some ((k, v) :: ms, r6)
                | none => none
              | c6 :: r5 => if c6 = rbrace then some ([(k, v)], r5) else none
              | [] => none
            | none => none
          | _ => none
        | none => none
      else none
    | [] => none

end

/-- Model of Python `json.loads`: parse one value and require that only
whitespace follows. -/
def jsonParse (s : String) : Option JsonV :=
  match parseVal (4 * s.length + 16) (skipWs s.data) with
  | some (v, rest) => if (skipWs rest).isEmpty then some v else none
  | none => none

/-! ### Field access on parsed JSON (Python subscription) -/

/-- Python dict semantics: duplicate keys in the source text keep the last
binding, so lookup returns the last matching member. -/
def lookupLast (k : String) : List (String × JsonV) → Option JsonV
  | [] => none
  | (k2, v) :: rest =>
    match lookupLast k rest with
    | some r => some r
    | none => if k2 = k then some v else none

/-- Model of `j[k]` for a string key: defined only on objects (KeyError on a missing
key and TypeError on a non-dict both surface as failures). -/
def JsonV.getField : JsonV → String → Option JsonV
  | JsonV.obj ms, k => lookupLast k ms
  | _, _ => none

/-- Model of `j[0]`: first element of a JSON array. -/
def getIdx0 : JsonV → Option JsonV
  | JsonV.arr (x :: _) => some x
  | _ => none

/-- Model of `j["choices"][0]["message"]["content"]`, requiring the result to be a
string (the script feeds it to `json.loads` / `write_text`). -/
def extractContent (j : JsonV) : Option String :=
  match (j.getField "choices").bind getIdx0 with
  | some m =>
    match (m.getField "message").bind (fun x => x.getField "content") with
    | some (JsonV.str s) => some s
    | _ => none
  | none => none

/-! ### Errors, responses, the generation client -/

/-- Error taxonomy of the specification, covering the exceptions the script
can raise (see the header comment for the mapping). -/
inductive Err where
  | configurationError : Err
  | transportError : Err
  | protocolError : Err
  | structureParseError : Err
  | runtimeTypeError : Err
deriving DecidableEq

/-- A remote response: HTTP status code and raw body text. -/
structure HttpResponse where
  status : Nat
  body : String

/-- Model of `response.raise_for_status()`: it raises `requests.HTTPError` exactly for
client-error and server-error status codes. -/
def statusRaises (s : Nat) : Bool := decide (400 ≤ s) && decide (s < 600)

/-- Model of `response.json()` followed by the content-field extraction chain. -/
def bodyContent (body : String) : Option String :=
  (jsonParse body).bind extractContent

/-- Model of `call_ai` from the source, applied to the response the oracle returns
for this call: `raise_for_status`, then
`response.json()["choices"][0]["message"]["content"]`. -/
def call_ai (r : HttpResponse) : Except Err String :=
  if statusRaises r.status then Except.error Err.transportError
  else
    match bodyContent r.body with
    | none => Except.error Err.protocolError
    | some s => Except.ok s

/-! ### The request text of each pipeline step (verbatim from the source) -/

def structureSystem : String := "You are a senior website architect."

def structureUser (prompt : String) : String :=
  "\nGenerate a JSON website structure.\n\nRules:\n- Header and footer must be global\n- Pages must be independent\n- Include pricing, login, signup, legal pages\n\nReturn ONLY valid JSON.\n\nPrompt:\n" ++ prompt ++ "\n"

def headerSystem : String := "You create reusable website headers."

def headerUser (prompt : String) : String :=
  "Create a clean global HTML header for this site:\n" ++ prompt

def footerSystem : String := "You create reusable website footers."

def footerUser (prompt : String) : String :=
  "Create a clean global HTML footer with disclaimer:\n" ++ prompt

def pageSystem : String := "You generate complete HTML pages."

def pageUser (page_name prompt : String) : String :=
  "\nCreate a FULL HTML page for \x27" ++ page_name ++ "\x27.\n\nRules:\n- Do NOT include header or footer\n- Content only inside <main>\n- SEO friendly\n- Professional UI\n\nWebsite prompt:\n" ++ prompt ++ "\n"

def cssSystem : String := "You generate production-ready CSS."

def cssUser (prompt : String) : String :=
  "\nCreate a modern fintech CSS stylesheet.\nDark & light friendly.\nMobile responsive.\n\nWebsite prompt:\n" ++ prompt ++ "\n"

/-! ### The assembler -/

/-- Model of `assemble_page` from the source: the f-string template with the three
blobs interpolated. -/
def assemble_page (body header footer : String) : String :=
  "<!DOCTYPE html>\n<html lang=\"en\">\n<head>\n  <meta charset=\"UTF-8\" />\n  <meta name=\"viewport\" content=\"width=device-width, initial-scale=1.0\"/>\n  <link rel=\"stylesheet\" href=\"main.css\"/>\n</head>\n<body>\n" ++ header ++ "\n<main>\n" ++ body ++ "\n</main>\n" ++ footer ++ "\n</body>\n</html>\n"

/-! ### The pipeline driver -/

/-- Observable actions of one run: network requests (system and user
message text) and file writes (name and content). -/
inductive Event where
  | netCall (system user : String) : Event
  | fileWrite (name content : String) : Event
deriving DecidableEq

/-- The run environment: the `OPENROUTER_API_KEY` environment variable,
the contents of `prompt.txt`, and the oracle giving the response to the
n-th network call of the run. -/
structure Env where
  apiKey : Option String
  promptText : String
  respond : Nat → HttpResponse

/-- Python truthiness of `not OPENROUTER_API_KEY`: unset (`None`) and the
empty string both count as missing. -/
def keyMissing : Option String → Bool
  | none => true
  | some s => s.isEmpty

/-- The `for page in structure["pages"]` loop: one generation call and one
file write per entry, stopping at the first failure.  `idx` is the index
of the next network call.  A non-string entry makes the iteration fail
(in Python, `OUTPUT_DIR / page` raises TypeError; the model raises before
the network call for that page, a harmless simplification since no claim touches
non-string page entries). -/
def pagesLoop (env : Env) (prompt header footer : String) :
    Nat → List JsonV → List Event × Except Err Unit
  | _, [] => ([], Except.ok ())
  | idx, p :: rest =>
    match p with
    | JsonV.str name =>
      match call_ai (env.respond idx) with
      | Except.error e =>
        ([Event.netCall pageSystem (pageUser name prompt)], Except.error e)
      | Except.ok body =>
        let r := pagesLoop env prompt header footer (idx + 1) rest
        (Event.netCall pageSystem (pageUser name prompt)
           :: Event.fileWrite name (assemble_page body header footer) :: r.1,
         r.2)
    | _ => ([], Except.error Err.runtimeTypeError)

/-- Model of `main` from the source (named `mainRun`; Lean reserves that name), as a function from the environment to the
event trace and the outcome.  Call order and write order follow the
script: structure, header, footer (writes of header.html/footer.html),
CSS (write of main.css), then the page loop. -/
def mainRun (env : Env) : List Event × Except Err Unit :=
  if keyMissing env.apiKey then ([], Except.error Err.configurationError)
  else
    let prompt := env.promptText
    let e0 := Event.netCall structureSystem (structureUser prompt)
    match call_ai (env.respond 0) with
    | Except.error err => ([e0], Except.error err)
    | Except.ok structText =>
      match jsonParse structText with
      | none => ([e0], Except.error Err.structureParseError)
      | some structJson =>
        let e1 := Event.netCall headerSystem (headerUser prompt)
        match call_ai (env.respond 1) with
        | Except.error err => ([e0, e1], Except.error err)
        | Except.ok headerText =>
          let e2 := Event.netCall footerSystem (footerUser prompt)
          match call_ai (env.respond 2) with
          | Except.error err => ([e0, e1, e2], Except.error err)
          | Except.ok footerText =>
            let w1 := Event.fileWrite "header.html" headerText
            let w2 := Event.fileWrite "footer.html" footerText
            let e3 := Event.netCall cssSystem (cssUser prompt)
            match call_ai (env.respond 3) with
            | Except.error err => ([e0, e1, e2, w1, w2, e3], Except.error err)
            | Except.ok cssText =>
              let w3 := Event.fileWrite "main.css" cssText
              match structJson.getField "pages" with
              | none =>
                ([e0, e1, e2, w1, w2, e3, w3], Except.error Err.structureParseError)
              | some pagesJson =>
                match pagesJson with
                | JsonV.arr ps =>
                  let r := pagesLoop env prompt headerText footerText 4 ps
                  ([e0, e1, e2, w1, w2, e3, w3] ++ r.1, r.2)
                | _ => ([e0, e1, e2, w1, w2, e3, w3], Except.error Err.runtimeTypeError)

/-! ### String helper lemmas -/

theorem str_assoc (a b c : String) : (a ++ b) ++ c = a ++ (b ++ c) := by
  obtain ⟨la⟩ := a
  obtain ⟨lb⟩ := b
  obtain ⟨lc⟩ := c
  exact congrArg String.mk (List.append_assoc la lb lc)

theorem str_cancel_left (a b c : String) (h : a ++ b = a ++ c) : b = c := by
  obtain ⟨la⟩ := a
  obtain ⟨lb⟩ := b
  obtain ⟨lc⟩ := c
  have h2 : la ++ lb = la ++ lc := congrArg String.data h
  exact congrArg String.mk (List.append_cancel_left h2)

theorem str_cancel_right (a b c : String) (h : a ++ c = b ++ c) : a = b := by
  obtain ⟨la⟩ := a
  obtain ⟨lb⟩ := b
  obtain ⟨lc⟩ := c
  have h2 : la ++ lc = lb ++ lc := congrArg String.data h
  exact congrArg String.mk (List.append_cancel_right h2)

/-! ### Ordered containment of substrings -/

/-- Predicate `ChainSub pats s` says the strings `pats` occur in `s`, in this order,
each verbatim, with the next occurrence starting after the previous one
ends. -/
def ChainSub : List String → String → Prop
  | [], _ => True
  | p :: ps, s => ∃ a r, s = a ++ p ++ r ∧ ChainSub ps r

/-- Interleave gap/pattern pairs and a tail into one string
(right-associated). -/
def glueR : List (String × String) → String → String
  | [], t => t
  | (a, p) :: rest, t => a ++ (p ++ glueR rest t)

theorem chainSub_glueR (l : List (String × String)) (t : String) :
    ChainSub (l.map Prod.snd) (glueR l t) := by
  induction l with
  | nil => trivial
  | cons hd tl ih =>
    exact ⟨hd.1, glueR tl t, (str_assoc hd.1 hd.2 (glueR tl t)).symm, ih⟩

/-- Number of (possibly overlapping) occurrences of `pat` in `s`. -/
def countOcc (pat s : List Char) : Nat :=
  ((List.range (s.length + 1)).filter (fun i => pat.isPrefixOf (s.drop i))).length

def strCount (pat s : String) : Nat := countOcc pat.data s.data

/-- Right-associated decomposition of the assembled document: the fixed
head (doctype/charset/viewport/stylesheet/body-open), then the header,
the `<main>`-wrapped body, the footer, and the fixed tail. -/
theorem assemble_decomp (b h f : String) :
    assemble_page b h f =
      "<!DOCTYPE html>\n<html lang=\"en\">\n<head>\n  <meta charset=\"UTF-8\" />\n  <meta name=\"viewport\" content=\"width=device-width, initial-scale=1.0\"/>\n  <link rel=\"stylesheet\" href=\"main.css\"/>\n</head>\n<body>\n" ++
        (h ++ ("\n<main>\n" ++ (b ++ ("\n</main>\n" ++ (f ++ "\n</body>\n</html>\n"))))) := by
  simp only [assemble_page, str_assoc]

/-! ### Claims about the assembler -/

/-- Claim C1: for every body, header and footer string, `assemble_page`
returns one document string containing, in this order, the
`<!DOCTYPE html>` declaration, the UTF-8 charset meta tag, the responsive
viewport meta tag, the stylesheet link to `main.css`, then — between the
opening and closing `body` tags — the header blob, the body blob wrapped
in a `<main>` region, and the footer blob. -/
theorem claim_C1 (b h f : String) :
    ChainSub ["<!DOCTYPE html>",
      "<meta charset=\"UTF-8\" />",
      "<meta name=\"viewport\" content=\"width=device-width, initial-scale=1.0\"/>",
      "<link rel=\"stylesheet\" href=\"main.css\"/>",
      "<body>", h, "<main>", b, "</main>", f, "</body>"]
      (assemble_page b h f) := by
  have e2 :
      "<!DOCTYPE html>\n<html lang=\"en\">\n<head>\n  <meta charset=\"UTF-8\" />\n  <meta name=\"viewport\" content=\"width=device-width, initial-scale=1.0\"/>\n  <link rel=\"stylesheet\" href=\"main.css\"/>\n</head>\n<body>\n" ++
        (h ++ ("\n<main>\n" ++ (b ++ ("\n</main>\n" ++ (f ++ "\n</body>\n</html>\n"))))) =
      glueR [("", "<!DOCTYPE html>"),
            ("\n<html lang=\"en\">\n<head>\n  ", "<meta charset=\"UTF-8\" />"),
            ("\n  ", "<meta name=\"viewport\" content=\"width=device-width, initial-scale=1.0\"/>"),
            ("\n  ", "<link rel=\"stylesheet\" href=\"main.css\"/>"),
            ("\n</head>\n", "<body>"),
            ("\n", h), ("\n", "<main>"), ("\n", b), ("\n", "</main>"),
            ("\n", f), ("\n", "</body>")] "\n</html>\n" := by
    cases b
    cases h
    cases f
    rfl
  rw [assemble_decomp, e2]
  exact chainSub_glueR
    [("", "<!DOCTYPE html>"),
     ("\n<html lang=\"en\">\n<head>\n  ", "<meta charset=\"UTF-8\" />"),
     ("\n  ", "<meta name=\"viewport\" content=\"width=device-width, initial-scale=1.0\"/>"),
     ("\n  ", "<link rel=\"stylesheet\" href=\"main.css\"/>"),
     ("\n</head>\n", "<body>"),
     ("\n", h), ("\n", "<main>"), ("\n", b), ("\n", "</main>"),
     ("\n", f), ("\n", "</body>")] "\n</html>\n"

/-- Claim C6 is refuted as stated: for header blob `"<main>"` the header
text does not occur exactly once in the assembled document — it occurs
twice (the fixed template also contains `<main>`), so "verbatim and
exactly once" fails at this input. -/
theorem claim_C6_counterexample :
    strCount "<main>" (assemble_page "b" "<main>" "f") = 2 := by decide

/-- Claim C6 (amended): the Assembler splices each of H, B, F into the
fixed template exactly once, verbatim and untruncated, with H before B
and F after B; the original "appears exactly once as a substring" is not
guaranteed, since the text of a blob may also occur inside the fixed wrapper
or inside another blob. -/
theorem claim_C6_amended (b h f : String) :
    assemble_page b h f =
      "<!DOCTYPE html>\n<html lang=\"en\">\n<head>\n  <meta charset=\"UTF-8\" />\n  <meta name=\"viewport\" content=\"width=device-width, initial-scale=1.0\"/>\n  <link rel=\"stylesheet\" href=\"main.css\"/>\n</head>\n<body>\n" ++
        (h ++ ("\n<main>\n" ++ (b ++ ("\n</main>\n" ++ (f ++ "\n</body>\n</html>\n"))))) ∧
    ChainSub [h, b, f] (assemble_page b h f) := by
  refine ⟨assemble_decomp b h f, ?_⟩
  rw [assemble_decomp]
  exact chainSub_glueR
    [("<!DOCTYPE html>\n<html lang=\"en\">\n<head>\n  <meta charset=\"UTF-8\" />\n  <meta name=\"viewport\" content=\"width=device-width, initial-scale=1.0\"/>\n  <link rel=\"stylesheet\" href=\"main.css\"/>\n</head>\n<body>\n", h),
     ("\n<main>\n", b), ("\n</main>\n", f)] "\n</body>\n</html>\n"

/-- Claim C7: the Assembler is injective in its body argument for fixed
header and footer — distinct bodies give distinct documents. -/
theorem claim_C7 (b1 b2 h f : String) (hne : b1 ≠ b2) :
    assemble_page b1 h f ≠ assemble_page b2 h f := by
  intro heq
  apply hne
  rw [assemble_decomp b1 h f, assemble_decomp b2 h f] at heq
  have h1 := str_cancel_left _ _ _ heq
  have h2 := str_cancel_left _ _ _ h1
  have h3 := str_cancel_left _ _ _ h2
  exact str_cancel_right _ _ _ h3

/-- Witness for claim C7 at a concrete input. -/
theorem claim_C7_witness :
    ("a" : String) ≠ "b" ∧ assemble_page "a" "" "" ≠ assemble_page "b" "" "" :=
  ⟨by decide, claim_C7 "a" "b" "" "" (by decide)⟩

/-- Claim C8: the Assembler is a pure, total, deterministic function of
its three string inputs — it is a total Lean function, and two calls with
identical inputs yield the identical output string. -/
theorem claim_C8 (b1 h1 f1 b2 h2 f2 : String)
    (hb : b1 = b2) (hh : h1 = h2) (hf : f1 = f2) :
    assemble_page b1 h1 f1 = assemble_page b2 h2 f2 := by
  rw [hb, hh, hf]

/-- Witness for claim C8 at a concrete input. -/
theorem claim_C8_witness :
    assemble_page "B" "H" "F" = assemble_page "B" "H" "F" :=
  claim_C8 "B" "H" "F" "B" "H" "F" rfl rfl rfl

/-! ### Claims about the generation client and the pipeline driver -/

/-- A page-generation request is recognised by its system message. -/
def isPageCall : Event → Bool
  | Event.netCall s _ => s == pageSystem
  | _ => false

/-- A syntactically well-formed chat-completion body whose content field
holds `content` (used to build concrete oracle responses; `content` must
not itself need JSON string escaping). -/
def chatBody (content : String) : String :=
  "\x7b\"choices\": [\x7b\"message\": \x7b\"content\": \"" ++ content ++ "\"\x7d\x7d]\x7d"

/-- Claim C4: with the API-key credential absent, the run fails with the
configuration error and the event trace is empty — no network call (and
no file write) of any kind happens. -/
theorem claim_C4 (env : Env) (h : env.apiKey = none) :
    mainRun env = ([], Except.error Err.configurationError) := by
  simp [mainRun, keyMissing, h]

def envC4 : Env := ⟨none, "p", fun _ => ⟨200, chatBody "X"⟩⟩

/-- Witness for claim C4 at a concrete environment. -/
theorem claim_C4_witness :
    mainRun envC4 = ([], Except.error Err.configurationError) :=
  claim_C4 envC4 rfl

/-- Claim C5: the generation client fails with the transport error when
the remote status is a client or server error (what `raise_for_status`
raises for), fails with the protocol error when the response body lacks
the expected content field (including a body that is not JSON), and
otherwise returns the text of the content field. -/
theorem claim_C5 (r : HttpResponse) :
    (statusRaises r.status = true → call_ai r = Except.error Err.transportError) ∧
    (statusRaises r.status = false → bodyContent r.body = none →
      call_ai r = Except.error Err.protocolError) ∧
    (∀ s, statusRaises r.status = false → bodyContent r.body = some s →
      call_ai r = Except.ok s) := by
  refine ⟨fun h1 => ?_, fun h1 h2 => ?_, fun s h1 h2 => ?_⟩
  · simp [call_ai, h1]
  · simp [call_ai, h1, h2]
  · simp [call_ai, h1, h2]

/-- Witness for claim C5 on three concrete responses. -/
theorem claim_C5_witness :
    call_ai ⟨404, "ignored"⟩ = Except.error Err.transportError ∧
    call_ai ⟨200, "\x7b\x7d"⟩ = Except.error Err.protocolError ∧
    call_ai ⟨200, chatBody "hi"⟩ = Except.ok "hi" :=
  ⟨(claim_C5 ⟨404, "ignored"⟩).1 (by decide),
   (claim_C5 ⟨200, "\x7b\x7d"⟩).2.1 (by decide) rfl,
   (claim_C5 ⟨200, chatBody "hi"⟩).2.2 "hi" (by decide) rfl⟩

/-- Claim C2: when the structure call succeeds but its text is not
parseable as JSON, the run stops with the structure-parse error right
there: the trace is exactly the one structure call, so no page-generation
call (indeed no further call and no write) is ever attempted. -/
theorem claim_C2 (env : Env) (t : String)
    (hkey : keyMissing env.apiKey = false)
    (hcall : call_ai (env.respond 0) = Except.ok t)
    (hparse : jsonParse t = none) :
    mainRun env = ([Event.netCall structureSystem (structureUser env.promptText)],
      Except.error Err.structureParseError) ∧
    ∀ u, Event.netCall pageSystem u ∉ (mainRun env).1 := by
  have e : mainRun env =
      ([Event.netCall structureSystem (structureUser env.promptText)],
        Except.error Err.structureParseError) := by
    simp [mainRun, hkey, hcall, hparse]
  refine ⟨e, fun u hu => ?_⟩
  rw [e] at hu
  simp [pageSystem, structureSystem] at hu

def respC2 : Nat → HttpResponse
  | 0 => ⟨200, chatBody "oops"⟩
  | _ => ⟨200, chatBody "X"⟩

def envC2 : Env := ⟨some "sk-demo", "p", respC2⟩

/-- Witness for claim C2 at a concrete environment whose structure
response content is not JSON. -/
theorem claim_C2_witness :
    mainRun envC2 = ([Event.netCall structureSystem (structureUser "p")],
      Except.error Err.structureParseError) ∧
    ∀ u, Event.netCall pageSystem u ∉ (mainRun envC2).1 :=
  claim_C2 envC2 "oops" rfl rfl rfl

/-- Name of the file written by a write event, if any. -/
def writeName : Event → Option String
  | Event.fileWrite n _ => some n
  | _ => none

/-- Oracle for the C3 scenario: the structure response content is the
parseable JSON text consisting of an empty object (so it has no `pages`
field); the later calls succeed. -/
def respC3 : Nat → HttpResponse
  | 0 => ⟨200, chatBody "\x7b\x7d"⟩
  | 1 => ⟨200, chatBody "HDR"⟩
  | 2 => ⟨200, chatBody "FTR"⟩
  | 3 => ⟨200, chatBody "CSS"⟩
  | _ => ⟨200, chatBody "X"⟩

def envC3 : Env := ⟨some "sk-demo", "p", respC3⟩

/-- Claim C3 is refuted as stated: with a structure response whose content
is the parseable JSON object with no `pages` field, `generate_structure`
does not fail — the run generates and writes the header, footer and CSS,
and only then stops with the structure-parse (missing field) error.  The
trace below contains the header generation call and the header/footer/CSS
writes, contradicting "no header, footer, CSS or page generation occurs
after such a malformed structure is obtained". -/
theorem claim_C3_counterexample :
    mainRun envC3 =
      ([Event.netCall structureSystem (structureUser "p"),
        Event.netCall headerSystem (headerUser "p"),
        Event.netCall footerSystem (footerUser "p"),
        Event.fileWrite "header.html" "HDR",
        Event.fileWrite "footer.html" "FTR",
        Event.netCall cssSystem (cssUser "p"),
        Event.fileWrite "main.css" "CSS"],
       Except.error Err.structureParseError) ∧
    Event.netCall headerSystem (headerUser "p") ∈ (mainRun envC3).1 ∧
    Event.fileWrite "main.css" "CSS" ∈ (mainRun envC3).1 := by
  refine ⟨rfl, ?_, ?_⟩ <;> decide

/-- Claim C3 (amended): when the structure response is parseable but
lacks a `pages` field, the pipeline does fail with the structure-parse
error and performs no page-generation call — but only after the header,
footer and CSS have been generated and written (the missing field is
detected at `structure["pages"]` in `main`, not in `generate_structure`). -/
theorem claim_C3_amended (env : Env) (t : String) (sj : JsonV) (hdr ftr css : String)
    (hkey : keyMissing env.apiKey = false)
    (h0 : call_ai (env.respond 0) = Except.ok t)
    (hparse : jsonParse t = some sj)
    (hpages : sj.getField "pages" = none)
    (h1 : call_ai (env.respond 1) = Except.ok hdr)
    (h2 : call_ai (env.respond 2) = Except.ok ftr)
    (h3 : call_ai (env.respond 3) = Except.ok css) :
    mainRun env =
      ([Event.netCall structureSystem (structureUser env.promptText),
        Event.netCall headerSystem (headerUser env.promptText),
        Event.netCall footerSystem (footerUser env.promptText),
        Event.fileWrite "header.html" hdr,
        Event.fileWrite "footer.html" ftr,
        Event.netCall cssSystem (cssUser env.promptText),
        Event.fileWrite "main.css" css],
       Except.error Err.structureParseError) ∧
    ∀ u, Event.netCall pageSystem u ∉ (mainRun env).1 := by
  have e : mainRun env =
      ([Event.netCall structureSystem (structureUser env.promptText),
        Event.netCall headerSystem (headerUser env.promptText),
        Event.netCall footerSystem (footerUser env.promptText),
        Event.fileWrite "header.html" hdr,
        Event.fileWrite "footer.html" ftr,
        Event.netCall cssSystem (cssUser env.promptText),
        Event.fileWrite "main.css" css],
       Except.error Err.structureParseError) := by
    simp [mainRun, hkey, h0, hparse, h1, h2, h3, hpages]
  refine ⟨e, fun u hu => ?_⟩
  rw [e] at hu
  simp [pageSystem, structureSystem, headerSystem, footerSystem, cssSystem] at hu

/-- Witness for the amended claim C3 at the concrete environment of the
counterexample. -/
theorem claim_C3_amended_witness :
    mainRun envC3 =
      ([Event.netCall structureSystem (structureUser "p"),
        Event.netCall headerSystem (headerUser "p"),
        Event.netCall footerSystem (footerUser "p"),
        Event.fileWrite "header.html" "HDR",
        Event.fileWrite "footer.html" "FTR",
        Event.netCall cssSystem (cssUser "p"),
        Event.fileWrite "main.css" "CSS"],
       Except.error Err.structureParseError) ∧
    ∀ u, Event.netCall pageSystem u ∉ (mainRun envC3).1 :=
  claim_C3_amended envC3 "\x7b\x7d" (JsonV.obj []) "HDR" "FTR" "CSS"
    rfl rfl rfl rfl rfl rfl rfl

/-- Claim C9: when the structure response parses to an empty page list,
the run succeeds, writes exactly `header.html`, `footer.html` and
`main.css` (in this order), and writes no page file. -/
theorem claim_C9 (env : Env) (t : String) (sj : JsonV) (hdr ftr css : String)
    (hkey : keyMissing env.apiKey = false)
    (h0 : call_ai (env.respond 0) = Except.ok t)
    (hparse : jsonParse t = some sj)
    (hpages : sj.getField "pages" = some (JsonV.arr []))
    (h1 : call_ai (env.respond 1) = Except.ok hdr)
    (h2 : call_ai (env.respond 2) = Except.ok ftr)
    (h3 : call_ai (env.respond 3) = Except.ok css) :
    mainRun env =
      ([Event.netCall structureSystem (structureUser env.promptText),
        Event.netCall headerSystem (headerUser env.promptText),
        Event.netCall footerSystem (footerUser env.promptText),
        Event.fileWrite "header.html" hdr,
        Event.fileWrite "footer.html" ftr,
        Event.netCall cssSystem (cssUser env.promptText),
        Event.fileWrite "main.css" css],
       Except.ok ()) ∧
    (mainRun env).1.filterMap writeName = ["header.html", "footer.html", "main.css"] := by
  have e : mainRun env =
      ([Event.netCall structureSystem (structureUser env.promptText),
        Event.netCall headerSystem (headerUser env.promptText),
        Event.netCall footerSystem (footerUser env.promptText),
        Event.fileWrite "header.html" hdr,
        Event.fileWrite "footer.html" ftr,
        Event.netCall cssSystem (cssUser env.promptText),
        Event.fileWrite "main.css" css],
       Except.ok ()) := by
    simp [mainRun, hkey, h0, hparse, h1, h2, h3, hpages, pagesLoop]
  refine ⟨e, ?_⟩
  rw [e]
  simp [List.filterMap, writeName]

/-- Oracle for the C9 scenario: the structure response content is a
JSON object whose `pages` field is the empty list. -/
def respC9 : Nat → HttpResponse
  | 0 => ⟨200, chatBody "\x7b\\\"pages\\\": []\x7d"⟩
  | 1 => ⟨200, chatBody "HDR"⟩
  | 2 => ⟨200, chatBody "FTR"⟩
  | 3 => ⟨200, chatBody "CSS"⟩
  | _ => ⟨200, chatBody "X"⟩

def envC9 : Env := ⟨some "sk-demo", "p", respC9⟩

/-- Witness for claim C9 at a concrete environment. -/
theorem claim_C9_witness :
    mainRun envC9 =
      ([Event.netCall structureSystem (structureUser "p"),
        Event.netCall headerSystem (headerUser "p"),
        Event.netCall footerSystem (footerUser "p"),
        Event.fileWrite "header.html" "HDR",
        Event.fileWrite "footer.html" "FTR",
        Event.netCall cssSystem (cssUser "p"),
        Event.fileWrite "main.css" "CSS"],
       Except.ok ()) ∧
    (mainRun envC9).1.filterMap writeName = ["header.html", "footer.html", "main.css"] :=
  claim_C9 envC9 "\x7b\"pages\": []\x7d" (JsonV.obj [("pages", JsonV.arr [])])
    "HDR" "FTR" "CSS" rfl rfl rfl rfl rfl rfl rfl

/-! ### The page loop on a list of string page names -/

/-- The events the page loop produces for page names `l`, when every page
call succeeds and the `k`-th network call returns body `B k`. -/
def pageTrace (B : Nat → String) (prompt hdr ftr : String) : Nat → List String → List Event
  | _, [] => []
  | idx, n :: rest =>
    Event.netCall pageSystem (pageUser n prompt)
      :: Event.fileWrite n (assemble_page (B idx) hdr ftr)
      :: pageTrace B prompt hdr ftr (idx + 1) rest

theorem pagesLoop_ok (env : Env) (prompt hdr ftr : String) (B : Nat → String) :
    ∀ (names : List String) (idx : Nat),
      (∀ k, k < names.length → call_ai (env.respond (idx + k)) = Except.ok (B (idx + k))) →
      pagesLoop env prompt hdr ftr idx (names.map JsonV.str) =
        (pageTrace B prompt hdr ftr idx names, Except.ok ()) := by
  intro names
  induction names with
  | nil => intro idx _; rfl
  | cons n rest ih =>
    intro idx h
    have h0 : call_ai (env.respond idx) = Except.ok (B idx) := by
      have := h 0 (by simp)
      simpa using this
    have hrest : ∀ k, k < rest.length →
        call_ai (env.respond (idx + 1 + k)) = Except.ok (B (idx + 1 + k)) := by
      intro k hk
      have e : idx + 1 + k = idx + (k + 1) := by omega
      rw [e]
      exact h (k + 1) (by simpa using Nat.succ_lt_succ hk)
    simp [pagesLoop, pageTrace, h0, ih (idx + 1) hrest]

/-! ### Counting calls and writes, and the final content of a file -/

def countEvent (e : Event) : List Event → Nat
  | [] => 0
  | x :: xs => (if x = e then 1 else 0) + countEvent e xs

def countWritesTo (n : String) : List Event → Nat
  | [] => 0
  | Event.fileWrite m _ :: xs => (if m = n then 1 else 0) + countWritesTo n xs
  | _ :: xs => countWritesTo n xs

def countStr (n : String) : List String → Nat
  | [] => 0
  | x :: xs => (if x = n then 1 else 0) + countStr n xs

/-- Content of the last write to file `n` in a trace — the content the
file holds on disk at the end of the run (later writes overwrite). -/
def lastWriteTo (n : String) : List Event → Option String
  | [] => none
  | e :: rest =>
    match lastWriteTo n rest with
    | some c => some c
    | none =>
      match e with
      | Event.fileWrite m c => if m = n then some c else none
      | _ => none

theorem countEvent_append (e : Event) (a b : List Event) :
    countEvent e (a ++ b) = countEvent e a + countEvent e b := by
  induction a with
  | nil => simp [countEvent]
  | cons x xs ih => simp [countEvent, ih, Nat.add_assoc]

theorem countWritesTo_append (n : String) (a b : List Event) :
    countWritesTo n (a ++ b) = countWritesTo n a + countWritesTo n b := by
  induction a with
  | nil => simp [countWritesTo]
  | cons x xs ih =>
    cases x with
    | netCall s u => simp [countWritesTo, ih]
    | fileWrite m c => simp [countWritesTo, ih, Nat.add_assoc]

theorem lastWriteTo_append (n : String) (a b : List Event) :
    lastWriteTo n (a ++ b) =
      match lastWriteTo n b with
      | some c => some c
      | none => lastWriteTo n a := by
  induction a with
  | nil => cases hb : lastWriteTo n b <;> simp [lastWriteTo, hb]
  | cons x xs ih =>
    cases hb : lastWriteTo n b <;> simp [hb] at ih ⊢ <;>
      simp [lastWriteTo, ih]

theorem pageUser_inj (m n p : String) (h : pageUser m p = pageUser n p) : m = n := by
  simp only [pageUser, str_assoc] at h
  have h1 := str_cancel_left _ _ _ h
  exact str_cancel_right _ _ _ h1

theorem pageUser_eq_iff (m n p : String) :
    (pageUser m p = pageUser n p) ↔ m = n := by
  constructor
  · exact pageUser_inj m n p
  · intro h
    rw [h]

theorem countEvent_pageTrace (B : Nat → String) (p hdr ftr n : String) :
    ∀ (l : List String) (idx : Nat),
      countEvent (Event.netCall pageSystem (pageUser n p))
        (pageTrace B p hdr ftr idx l) = countStr n l := by
  intro l
  induction l with
  | nil => intro idx; rfl
  | cons m rest ih =>
    intro idx
    simp [pageTrace, countEvent, countStr, ih (idx + 1), pageUser_eq_iff]

theorem countWritesTo_pageTrace (B : Nat → String) (p hdr ftr n : String) :
    ∀ (l : List String) (idx : Nat),
      countWritesTo n (pageTrace B p hdr ftr idx l) = countStr n l := by
  intro l
  induction l with
  | nil => intro idx; rfl
  | cons m rest ih =>
    intro idx
    simp [pageTrace, countWritesTo, countStr, ih (idx + 1)]

theorem lastWriteTo_pageTrace_none (B : Nat → String) (p hdr ftr n : String) :
    ∀ (l : List String) (idx : Nat), n ∉ l →
      lastWriteTo n (pageTrace B p hdr ftr idx l) = none := by
  intro l
  induction l with
  | nil => intro idx _; rfl
  | cons m rest ih =>
    intro idx hm
    simp only [List.mem_cons, not_or] at hm
    obtain ⟨h1, h2⟩ := hm
    have h1s : ¬ (m = n) := fun hc => h1 hc.symm
    simp [pageTrace, lastWriteTo, ih (idx + 1) h2, h1s]

theorem lastWriteTo_pageTrace_split (B : Nat → String) (p hdr ftr n : String)
    (l₂ : List String) (hn : n ∉ l₂) :
    ∀ (l₁ : List String) (idx : Nat),
      lastWriteTo n (pageTrace B p hdr ftr idx (l₁ ++ n :: l₂)) =
        some (assemble_page (B (idx + l₁.length)) hdr ftr) := by
  intro l₁
  induction l₁ with
  | nil =>
    intro idx
    simp [pageTrace, lastWriteTo, lastWriteTo_pageTrace_none B p hdr ftr n l₂ (idx + 1) hn]
  | cons m rest ih =>
    intro idx
    simp [pageTrace, lastWriteTo, ih (idx + 1)]
    rw [show idx + 1 + rest.length = idx + (rest.length + 1) from by omega]

/-- Claim C10: when the page list contains the same page identifier more
than once (`names = l₁ ++ n :: l₂` with the last occurrence at position
`l₁.length`), the run succeeds, issues one page-generation call and one
file write for that identifier per occurrence, and the final on-disk
content of the file is the document assembled from the body returned for
the last occurrence (page calls are network calls 4, 5, …; the body of
the call at the last occurrence is `B (4 + l₁.length)`). -/
theorem claim_C10 (env : Env) (B : Nat → String) (names l₁ l₂ : List String) (n : String)
    (t : String) (sj : JsonV) (hdr ftr css : String)
    (hkey : keyMissing env.apiKey = false)
    (h0 : call_ai (env.respond 0) = Except.ok t)
    (hparse : jsonParse t = some sj)
    (hpages : sj.getField "pages" = some (JsonV.arr (names.map JsonV.str)))
    (h1 : call_ai (env.respond 1) = Except.ok hdr)
    (h2 : call_ai (env.respond 2) = Except.ok ftr)
    (h3 : call_ai (env.respond 3) = Except.ok css)
    (hcalls : ∀ k, k < names.length →
      call_ai (env.respond (4 + k)) = Except.ok (B (4 + k)))
    (hsplit : names = l₁ ++ n :: l₂)
    (hlast : n ∉ l₂)
    (hw1 : n ≠ "header.html") (hw2 : n ≠ "footer.html") (hw3 : n ≠ "main.css") :
    (mainRun env).2 = Except.ok () ∧
    countEvent (Event.netCall pageSystem (pageUser n env.promptText)) (mainRun env).1 =
      countStr n names ∧
    countWritesTo n (mainRun env).1 = countStr n names ∧
    lastWriteTo n (mainRun env).1 =
      some (assemble_page (B (4 + l₁.length)) hdr ftr) := by
  have e : mainRun env =
      ([Event.netCall structureSystem (structureUser env.promptText),
        Event.netCall headerSystem (headerUser env.promptText),
        Event.netCall footerSystem (footerUser env.promptText),
        Event.fileWrite "header.html" hdr,
        Event.fileWrite "footer.html" ftr,
        Event.netCall cssSystem (cssUser env.promptText),
        Event.fileWrite "main.css" css] ++
          pageTrace B env.promptText hdr ftr 4 names,
       Except.ok ()) := by
    simp [mainRun, hkey, h0, hparse, h1, h2, h3, hpages,
      pagesLoop_ok env env.promptText hdr ftr B names 4 hcalls]
  refine ⟨?_, ?_, ?_, ?_⟩
  · rw [e]
  · rw [e, countEvent_append, countEvent_pageTrace B env.promptText hdr ftr n names 4]
    simp [countEvent, structureSystem, headerSystem, footerSystem, cssSystem, pageSystem]
  · rw [e, countWritesTo_append, countWritesTo_pageTrace B env.promptText hdr ftr n names 4]
    have hs1 : ¬ ("header.html" = n) := fun hc => hw1 hc.symm
    have hs2 : ¬ ("footer.html" = n) := fun hc => hw2 hc.symm
    have hs3 : ¬ ("main.css" = n) := fun hc => hw3 hc.symm
    simp [countWritesTo, hs1, hs2, hs3]
  · rw [e, lastWriteTo_append, hsplit,
      lastWriteTo_pageTrace_split B env.promptText hdr ftr n l₂ hlast l₁ 4]

/-- Oracle for the C10 scenario: the structure response lists the same
page identifier twice; the two page calls return distinct bodies. -/
def respC10 : Nat → HttpResponse
  | 0 => ⟨200, chatBody "\x7b\\\"pages\\\": [\\\"a.html\\\", \\\"a.html\\\"]\x7d"⟩
  | 1 => ⟨200, chatBody "HDR"⟩
  | 2 => ⟨200, chatBody "FTR"⟩
  | 3 => ⟨200, chatBody "CSS"⟩
  | 4 => ⟨200, chatBody "B1"⟩
  | _ => ⟨200, chatBody "B2"⟩

def envC10 : Env := ⟨some "sk-demo", "p", respC10⟩

def bodiesC10 : Nat → String := fun k => if k = 4 then "B1" else "B2"

/-- Witness for claim C10: the page `a.html` appears twice, two calls and
two writes happen for it, and the final content of `a.html` is the
document assembled from the second body. -/
theorem claim_C10_witness :
    (mainRun envC10).2 = Except.ok () ∧
    countEvent (Event.netCall pageSystem (pageUser "a.html" "p")) (mainRun envC10).1 =
      countStr "a.html" ["a.html", "a.html"] ∧
    countWritesTo "a.html" (mainRun envC10).1 = countStr "a.html" ["a.html", "a.html"] ∧
    lastWriteTo "a.html" (mainRun envC10).1 = some (assemble_page "B2" "HDR" "FTR") :=
  claim_C10 envC10 bodiesC10 ["a.html", "a.html"] ["a.html"] [] "a.html"
    "\x7b\"pages\": [\"a.html\", \"a.html\"]\x7d"
    (JsonV.obj [("pages", JsonV.arr [JsonV.str "a.html", JsonV.str "a.html"])])
    "HDR" "FTR" "CSS"
    rfl rfl rfl rfl rfl rfl rfl
    (by intro k hk; simp only [List.length_cons, List.length_nil] at hk; interval_cases k <;> rfl)
    rfl (by decide) (by decide) (by decide) (by decide)
